import Mathlib

/-!
OVERVIEW: Verification of the xyflow geometric core (`src/dist/esm/utils/graph.d.ts`)

A shallow embedding of the geometry / constraint functions of the bundled
xyflow core, with theorems checking the natural-language specification
against them.  JavaScript numbers are modelled by `ℚ` (every operation
used here is field arithmetic, `min`/`max`, absolute value and rounding);
`null`/`undefined` are modelled by `Option`.  Where the source compares
`Math.sqrt`-distances against a radius we compare squared distances
against the squared radius: `Real.sqrt` is strictly monotone on
nonnegative inputs, so for a nonnegative radius the comparisons (`<`,
`=`, `≤`) agree, and the development stays executable.
-/

namespace XYFlow

/-- An `{x, y}` point (`XYPosition` in the source). -/
structure XYPosition where
  x : ℚ
  y : ℚ
deriving DecidableEq, Repr

/-- A `{x, y, width, height}` rectangle (`Rect` in the source). -/
structure Rect where
  x : ℚ
  y : ℚ
  width : ℚ
  height : ℚ
deriving DecidableEq, Repr

/-- A `{x, y, x2, y2}` box (`Box` in the source). -/
structure Box where
  x : ℚ
  y : ℚ
  x2 : ℚ
  y2 : ℚ
deriving DecidableEq, Repr

/-- A coordinate extent `[[x1, y1], [x2, y2]]` (`CoordinateExtent`). -/
structure CoordExtent where
  lo : XYPosition
  hi : XYPosition
deriving DecidableEq, Repr

/-- A node extent: either the string sentinel `'parent'` or an explicit
coordinate extent.  `undefined` is `Option.none` at use sites. -/
inductive NodeExtent where
  | parentBound : NodeExtent
  | coords : CoordExtent → NodeExtent
deriving DecidableEq, Repr

/-- A viewport `{x, y, zoom}`. -/
structure Viewport where
  x : ℚ
  y : ℚ
  zoom : ℚ
deriving DecidableEq, Repr

/-- A transform `[tx, ty, tScale]`. -/
structure Transform where
  tx : ℚ
  ty : ℚ
  tScale : ℚ
deriving DecidableEq, Repr

/-- Embeds `const clamp = (val, min = 0, max = 1) => Math.min(Math.max(val, min), max)`. -/
def clamp (val lo hi : ℚ) : ℚ := Min.min (Max.max val lo) hi

/-- Embeds `clampPosition` from the source: clamp each coordinate into the extent. -/
def clampPosition (position : XYPosition) (extent : CoordExtent) : XYPosition :=
  { x := clamp position.x extent.lo.x extent.hi.x
    y := clamp position.y extent.lo.y extent.hi.y }

/-- Embeds `snapPosition`: round each coordinate to the nearest grid multiple. -/
def snapPosition (position : XYPosition) (snapGrid : ℚ × ℚ) : XYPosition :=
  { x := snapGrid.1 * (round (position.x / snapGrid.1) : ℤ)
    y := snapGrid.2 * (round (position.y / snapGrid.2) : ℤ) }

/-- Embeds `pointToRendererPoint({x, y}, [tx, ty, tScale], snapToGrid, snapGrid)`:
screen point to canvas point, optionally snapped to the grid. -/
def pointToRendererPoint (p : XYPosition) (t : Transform)
    (snapToGrid : Bool := false) (snapGrid : ℚ × ℚ := (1, 1)) : XYPosition :=
  let position : XYPosition := { x := (p.x - t.tx) / t.tScale, y := (p.y - t.ty) / t.tScale }
  if snapToGrid then snapPosition position snapGrid else position

/-- Embeds `rendererPointToPoint({x, y}, [tx, ty, tScale])`: canvas point to screen point. -/
def rendererPointToPoint (p : XYPosition) (t : Transform) : XYPosition :=
  { x := p.x * t.tScale + t.tx, y := p.y * t.tScale + t.ty }

/-- Embeds `getViewportForBounds(bounds, width, height, minZoom, maxZoom, padding)`. -/
def getViewportForBounds (bounds : Rect) (width height minZoom maxZoom padding : ℚ) :
    Viewport :=
  let xZoom := width / (bounds.width * (1 + padding))
  let yZoom := height / (bounds.height * (1 + padding))
  let zoom := Min.min xZoom yZoom
  let clampedZoom := clamp zoom minZoom maxZoom
  let boundsCenterX := bounds.x + bounds.width / 2
  let boundsCenterY := bounds.y + bounds.height / 2
  { x := width / 2 - boundsCenterX * clampedZoom
    y := height / 2 - boundsCenterY * clampedZoom
    zoom := clampedZoom }

/-- Embeds `calcAutoPanVelocity(value, min, max)`: one-dimensional auto-pan velocity.
Zero between `lo` and `hi`; past an edge, the overshoot is clamped into
`[1, lo]` and divided by `lo`, signed away from the edge. -/
def calcAutoPanVelocity (value lo hi : ℚ) : ℚ :=
  if value < lo then clamp |value - lo| 1 lo / lo
  else if value > hi then -(clamp |value - hi| 1 lo) / lo
  else 0

/-- Embeds `calcAutoPan(pos, bounds, speed = 15, distance = 40)`: per-axis pan deltas. -/
def calcAutoPan (pos : XYPosition) (bounds : Rect) (speed : ℚ := 15)
    (distance : ℚ := 40) : ℚ × ℚ :=
  (calcAutoPanVelocity pos.x distance (bounds.width - distance) * speed,
   calcAutoPanVelocity pos.y distance (bounds.height - distance) * speed)

/-!
SECTION: Node model

The subset of `InternalNodeBase` that the embedded functions read.
`measured.width` / `measured.height` are `Option ℚ` (they are `undefined`
until the measurement oracle reports), as are the declared
`width`/`height`/`initialWidth`/`initialHeight`.  The `internals` object
is flattened into `positionAbsolute` and `z`.
-/

/-- The fields of an internal node used by the embedded functions. -/
structure InternalNode where
  id : String
  position : XYPosition
  parentId : Option String := none
  extent : Option NodeExtent := none
  expandParent : Bool := false
  origin : Option (ℚ × ℚ) := none
  width : Option ℚ := none
  height : Option ℚ := none
  initialWidth : Option ℚ := none
  initialHeight : Option ℚ := none
  measuredWidth : Option ℚ := none
  measuredHeight : Option ℚ := none
  selected : Bool := false
  zIndex : Option ℚ := none
  positionAbsolute : XYPosition := { x := 0, y := 0 }
  z : ℚ := 0
deriving DecidableEq, Repr

/-- The node lookup: an association list standing in for the JS `Map`
from node id to internal node (`Map` iteration order is insertion order,
which an association list preserves). -/
def NodeLookup : Type := List (String × InternalNode)

/-- Embeds `nodeLookup.get(id)`. -/
def NodeLookup.get (l : NodeLookup) (id : String) : Option InternalNode :=
  List.lookup id l

/-- JavaScript truthiness of a possibly-undefined number: `undefined`,
`NaN` and `0` are falsy; we model `undefined ↦ none` and nonzero `some`
values as truthy. -/
def truthyQ : Option ℚ → Bool
  | some v => v ≠ 0
  | none => false

/-- Embeds `getNodeDimensions(node)`: `measured?.width ?? width ?? initialWidth ?? 0`
and the same for heights. -/
def getNodeDimensions (node : InternalNode) : ℚ × ℚ :=
  ((node.measuredWidth.orElse fun _ => node.width.orElse fun _ => node.initialWidth).getD 0,
   (node.measuredHeight.orElse fun _ => node.height.orElse fun _ => node.initialHeight).getD 0)

/-- Embeds `getNodePositionWithOrigin(node, nodeOrigin)`. -/
def getNodePositionWithOrigin (node : InternalNode) (nodeOrigin : ℚ × ℚ := (0, 0)) :
    XYPosition :=
  let dims := getNodeDimensions node
  let origin := node.origin.getD nodeOrigin
  { x := node.position.x - dims.1 * origin.1
    y := node.position.y - dims.2 * origin.2 }

/-- Embeds `clampNodeExtent(node, extent)`: shrink the max corner of an explicit
extent by the node's measured size (`measured?.width ?? 0`); `undefined`
and `'parent'` pass through. -/
def clampNodeExtent (node : InternalNode) (extent : Option NodeExtent) :
    Option NodeExtent :=
  match extent with
  | none => none
  | some NodeExtent.parentBound => some NodeExtent.parentBound
  | some (NodeExtent.coords e) =>
      some (NodeExtent.coords
        { lo := e.lo
          hi := { x := e.hi.x - node.measuredWidth.getD 0
                  y := e.hi.y - node.measuredHeight.getD 0 } })

/-- Embeds `isCoordinateExtent(extent)`: defined and not the `'parent'` sentinel. -/
def isCoordinateExtent : Option NodeExtent → Bool
  | some (NodeExtent.coords _) => true
  | _ => false

/-- Result of `calculateNodePosition`.  The relative `position` multiplies
`node.measured.width`/`height` (not defaulted), which in JavaScript is
`NaN` when the node is unmeasured; that contamination is modelled as
`none`. -/
structure CalcPosResult where
  position : Option XYPosition
  positionAbsolute : XYPosition
deriving DecidableEq, Repr

/-- Embeds `calculateNodePosition({nodeId, nextPosition, nodeLookup, nodeOrigin,
nodeExtent, onError})`.  Returns `none` when the node id is absent from
the lookup (where the JS would throw).  The `onError` reporting branch
(missing parent for a `'parent'` extent) has no effect on the returned
positions and is not modelled. -/
def calculateNodePosition (nodeId : String) (nextPosition : XYPosition)
    (nodeLookup : NodeLookup) (nodeOrigin : ℚ × ℚ := (0, 0))
    (nodeExtent : Option NodeExtent := none) : Option CalcPosResult :=
  match nodeLookup.get nodeId with
  | none => none
  | some node =>
    let parentNode := node.parentId.bind nodeLookup.get
    let parentX := (parentNode.map fun p => p.positionAbsolute.x).getD 0
    let parentY := (parentNode.map fun p => p.positionAbsolute.y).getD 0
    let origin := node.origin.getD nodeOrigin
    let currentExtent0 := clampNodeExtent node (node.extent.orElse fun _ => nodeExtent)
    let currentExtent :=
      if node.extent = some NodeExtent.parentBound ∧ ¬node.expandParent then
        match parentNode with
        | none => currentExtent0
        | some parentNode =>
          if truthyQ node.measuredWidth ∧ truthyQ node.measuredHeight ∧
              truthyQ parentNode.measuredWidth ∧ truthyQ parentNode.measuredHeight then
            some (NodeExtent.coords
              { lo := { x := parentX, y := parentY }
                hi := { x := parentX + parentNode.measuredWidth.getD 0 -
                          node.measuredWidth.getD 0
                        y := parentY + parentNode.measuredHeight.getD 0 -
                          node.measuredHeight.getD 0 } })
          else currentExtent0
      else if parentNode.isSome ∧ isCoordinateExtent node.extent then
        match node.extent with
        | some (NodeExtent.coords e) =>
            some (NodeExtent.coords
              { lo := { x := e.lo.x + parentX, y := e.lo.y + parentY }
                hi := { x := e.hi.x + parentX, y := e.hi.y + parentY } })
        | _ => currentExtent0
      else currentExtent0
    let positionAbsolute :=
      match currentExtent with
      | some (NodeExtent.coords e) => clampPosition nextPosition e
      | _ => nextPosition
    some
      { position :=
          match node.measuredWidth, node.measuredHeight with
          | some w, some h =>
              some { x := positionAbsolute.x - parentX + w * origin.1
                     y := positionAbsolute.y - parentY + h * origin.2 }
          | _, _ => none
        positionAbsolute := positionAbsolute }

/-- Embeds `rectToBox`. -/
def rectToBox (r : Rect) : Box :=
  { x := r.x, y := r.y, x2 := r.x + r.width, y2 := r.y + r.height }

/-- Embeds `boxToRect`. -/
def boxToRect (b : Box) : Rect :=
  { x := b.x, y := b.y, width := b.x2 - b.x, height := b.y2 - b.y }

/-- Embeds `getBoundsOfBoxes`. -/
def getBoundsOfBoxes (box1 box2 : Box) : Box :=
  { x := Min.min box1.x box2.x
    y := Min.min box1.y box2.y
    x2 := Max.max box1.x2 box2.x2
    y2 := Max.max box1.y2 box2.y2 }

/-- Embeds `nodeToBox(node)` for an internal node: absolute position plus
`measured?.width ?? width ?? initialWidth ?? 0` (same for height). -/
def nodeToBox (node : InternalNode) : Box :=
  { x := node.positionAbsolute.x
    y := node.positionAbsolute.y
    x2 := node.positionAbsolute.x + (getNodeDimensions node).1
    y2 := node.positionAbsolute.y + (getNodeDimensions node).2 }

/-- Embeds `getInternalNodesBounds(nodeLookup)` (no filter): union of the node
boxes.  The source seeds its fold with the box `(∞, ∞, -∞, -∞)`; since
`±∞` is the identity for `min`/`max`, seeding with the first node's box
is equivalent on nonempty input, and the empty case returns the zero
rect exactly as the source does. -/
def getInternalNodesBounds (nodes : List InternalNode) : Rect :=
  match nodes with
  | [] => { x := 0, y := 0, width := 0, height := 0 }
  | n :: rest =>
      boxToRect (rest.foldl (fun box m => getBoundsOfBoxes box (nodeToBox m)) (nodeToBox n))

/-- The `minZoom` / `maxZoom` / `padding` entries of fit-view options. -/
structure FitViewOptions where
  minZoom : Option ℚ := none
  maxZoom : Option ℚ := none
  padding : Option ℚ := none
deriving DecidableEq, Repr

/-- Embeds `fitView({nodes, width, height, panZoom, minZoom, maxZoom}, options)`.
The boolean result is the resolved promise value; the second component
records the single `panZoom.setViewport` call (`none` = never invoked). -/
def fitViewCalc (nodes : List InternalNode) (width height minZoom maxZoom : ℚ)
    (options : FitViewOptions) : Bool × Option Viewport :=
  if nodes.length = 0 then (false, none)
  else
    let bounds := getInternalNodesBounds nodes
    let viewport := getViewportForBounds bounds width height
      (options.minZoom.getD minZoom) (options.maxZoom.getD maxZoom)
      (options.padding.getD (1 / 10))
    (true, some viewport)

/-!
SECTION: Z-order resolution (`adoptUserNodes` helpers)
-/

/-- An `{x, y, z}` triple, the result of `calculateChildXYZ`. -/
structure XYZ where
  x : ℚ
  y : ℚ
  z : ℚ
deriving DecidableEq, Repr

/-- Embeds `calculateZ(node, selectedNodeZ)`: declared z (0 if not numeric) plus
the boost when selected.  `selectedNodeZ` is `1000` when
`elevateNodesOnSelect` is set and `0` otherwise. -/
def calculateZ (node : InternalNode) (selectedNodeZ : ℚ) : ℚ :=
  node.zIndex.getD 0 + (if node.selected then selectedNodeZ else 0)

/-- Embeds `calculateChildXYZ(childNode, parentNode, nodeOrigin, selectedNodeZ)`. -/
def calculateChildXYZ (childNode parentNode : InternalNode) (nodeOrigin : ℚ × ℚ)
    (selectedNodeZ : ℚ) : XYZ :=
  let position := getNodePositionWithOrigin childNode nodeOrigin
  let childZ := calculateZ childNode selectedNodeZ
  let parentZ := parentNode.z
  { x := parentNode.positionAbsolute.x + position.x
    y := parentNode.positionAbsolute.y + position.y
    z := if parentZ > childZ then parentZ else childZ }

/-!
SECTION: Drag items (`XYDrag.updateNodes`)
-/

/-- A `NodeDragItem`: the per-gesture snapshot taken by `getDragItems`
(measured sizes are defaulted to 0 there, so they are plain `ℚ`). -/
structure NodeDragItem where
  id : String
  position : XYPosition
  distance : XYPosition
  extent : Option NodeExtent := none
  parentId : Option String := none
  origin : Option (ℚ × ℚ) := none
  expandParent : Bool := false
  positionAbsolute : XYPosition
  measuredWidth : ℚ := 0
  measuredHeight : ℚ := 0
deriving DecidableEq, Repr

/-- Embeds `nodeToBox` on a drag item (it has `internals`, so the absolute
position is used; width and height come from `measured`). -/
def dragItemToBox (item : NodeDragItem) : Box :=
  { x := item.positionAbsolute.x
    y := item.positionAbsolute.y
    x2 := item.positionAbsolute.x + item.measuredWidth
    y2 := item.positionAbsolute.y + item.measuredHeight }

/-- Embeds `getInternalNodesBounds(dragItems)`: same union over drag items. -/
def getDragItemsBounds (items : List NodeDragItem) : Rect :=
  match items with
  | [] => { x := 0, y := 0, width := 0, height := 0 }
  | n :: rest =>
      boxToRect (rest.foldl (fun box m => getBoundsOfBoxes box (dragItemToBox m)) (dragItemToBox n))

/-- The body of the `updateNodes` loop of `XYDrag` for one drag item:
candidate position from the pointer minus the stored offset, optional
grid snap, the per-item adjusted extent (global extent translated so the
item keeps its place relative to the selection bounds when several items
are dragged and the item has no extent of its own), then
`calculateNodePosition`. -/
def updateNodeItem (pointer : XYPosition) (dragItemsCount : Nat) (nodesBox : Box)
    (nodeLookup : NodeLookup) (nodeExtent : CoordExtent) (nodeOrigin : ℚ × ℚ)
    (snapToGrid : Bool) (snapGrid : ℚ × ℚ) (dragItem : NodeDragItem) :
    String × Option CalcPosResult :=
  let nextPosition0 : XYPosition :=
    { x := pointer.x - dragItem.distance.x, y := pointer.y - dragItem.distance.y }
  let nextPosition := if snapToGrid then snapPosition nextPosition0 snapGrid else nextPosition0
  let adjustedNodeExtent : CoordExtent :=
    if dragItemsCount > 1 ∧ dragItem.extent = none then
      { lo := { x := dragItem.positionAbsolute.x - nodesBox.x + nodeExtent.lo.x
                y := dragItem.positionAbsolute.y - nodesBox.y + nodeExtent.lo.y }
        hi := { x := dragItem.positionAbsolute.x + dragItem.measuredWidth - nodesBox.x2 +
                  nodeExtent.hi.x
                y := dragItem.positionAbsolute.y + dragItem.measuredHeight - nodesBox.y2 +
                  nodeExtent.hi.y } }
    else nodeExtent
  (dragItem.id,
   calculateNodePosition dragItem.id nextPosition nodeLookup nodeOrigin
     (some (NodeExtent.coords adjustedNodeExtent)))

/-- Embeds `XYDrag.updateNodes({x, y})` position computation: the selection
bounds are computed once before the loop (only consulted when more than
one item is dragged), then every drag item's next position is resolved. -/
def updateNodesCalc (pointer : XYPosition) (dragItems : List NodeDragItem)
    (nodeLookup : NodeLookup) (nodeExtent : CoordExtent) (nodeOrigin : ℚ × ℚ)
    (snapToGrid : Bool) (snapGrid : ℚ × ℚ) : List (String × Option CalcPosResult) :=
  let nodesBox :=
    if dragItems.length > 1 then rectToBox (getDragItemsBounds dragItems)
    else { x := 0, y := 0, x2 := 0, y2 := 0 }
  dragItems.map
    (updateNodeItem pointer dragItems.length nodesBox nodeLookup nodeExtent nodeOrigin
      snapToGrid snapGrid)

/-!
SECTION: Connection handles (`XYHandle`)
-/

/-- A handle type: `'source'` or `'target'`. -/
inductive HandleType where
  | source : HandleType
  | target : HandleType
deriving DecidableEq, Repr

/-- A connection handle with its absolute position, as stored in the
handle lookup built by `getHandleLookup`. -/
structure ConnectionHandle where
  nodeId : String
  id : Option String := none
  type : HandleType
  x : ℚ
  y : ℚ
deriving DecidableEq, Repr

/-- Squared Euclidean distance from the pointer to a handle.  The source
computes `Math.sqrt` of this and compares it with `connectionRadius`;
comparing the squares against the squared radius is equivalent for a
nonnegative radius because `sqrt` is strictly monotone on `[0, ∞)`. -/
def handleDistSq (pos : XYPosition) (handle : ConnectionHandle) : ℚ :=
  (handle.x - pos.x) ^ 2 + (handle.y - pos.y) ^ 2

/-- One iteration of the `getClosestHandle` loop.  The state is the
collected `closestHandles` list and `minDistance` (`none` = the initial
`Infinity`).  Note the source assigns `minDistance = distance` whenever
the handle is inside the radius, even when `distance` is larger than the
current minimum. -/
def closestHandleStep (pos : XYPosition) (radiusSq : ℚ)
    (state : List ConnectionHandle × Option ℚ) (handle : ConnectionHandle) :
    List ConnectionHandle × Option ℚ :=
  let dSq := handleDistSq pos handle
  if dSq ≤ radiusSq then
    let closest :=
      match state.2 with
      | none => [handle]
      | some minD => if dSq < minD then [handle]
          else if dSq = minD then state.1 ++ [handle]
          else state.1
    (closest, some dSq)
  else state

/-- Embeds `getClosestHandle(pos, connectionRadius, handleLookup)`: fold the loop
over the lookup (insertion order), then return `null` for an empty
collection, the single handle, or — among the collected equidistant
handles — the first of type `'target'`, falling back to the first. -/
def getClosestHandle (pos : XYPosition) (connectionRadius : ℚ)
    (handleLookup : List ConnectionHandle) : Option ConnectionHandle :=
  let res := handleLookup.foldl (closestHandleStep pos (connectionRadius ^ 2)) ([], none)
  match res.1 with
  | [] => none
  | [h] => some h
  | hs => match hs.find? (fun h => h.type = HandleType.target) with
      | some h => some h
      | none => hs.head?

/-!
SECTION: Connection validity (`isValidHandle`)
-/

/-- The connection mode. -/
inductive ConnMode where
  | strictMode : ConnMode
  | loose : ConnMode
deriving DecidableEq, Repr

/-- A proposed connection `(source, target, sourceHandle, targetHandle)`. -/
structure ConnectionTuple where
  source : String
  sourceHandle : Option String
  target : String
  targetHandle : Option String
deriving DecidableEq, Repr

/-- The handle element found under / near the pointer, as read by
`isValidHandle` from the DOM element (`data-nodeid`, `data-handleid`,
its type class, and the `connectable` / `connectableend` classes). -/
structure CheckedHandle where
  handleType : HandleType
  nodeId : String
  id : Option String := none
  connectable : Bool := true
  connectableEnd : Bool := true
deriving DecidableEq, Repr

/-- The `connection` object `isValidHandle` constructs: the start side
supplies `source` (and `sourceHandle`) when the gesture started on a
source handle, `target` otherwise, with the checked handle on the
opposite side. -/
def proposedConnection (fromNodeId : String) (fromHandleId : Option String)
    (fromType : HandleType) (h : CheckedHandle) : ConnectionTuple :=
  let isTarget := fromType = HandleType.target
  { source := if isTarget then h.nodeId else fromNodeId
    sourceHandle := if isTarget then h.id else fromHandleId
    target := if isTarget then fromNodeId else h.nodeId
    targetHandle := if isTarget then fromHandleId else h.id }

/-- Embeds `isValidHandle(event, {...})`, restricted to the case where a handle
element was found (`handleToCheck` non-null): returns the `isValid` flag
and the proposed connection.  An empty `data-nodeid` makes the source
return early with `isValid: false`, `connection: null`. -/
def isValidHandleCalc (connectionMode : ConnMode) (fromNodeId : String)
    (fromHandleId : Option String) (fromType : HandleType)
    (isValidConnection : ConnectionTuple → Bool) (h : CheckedHandle) :
    Bool × Option ConnectionTuple :=
  let isTarget := fromType = HandleType.target
  if h.nodeId = "" then (false, none)
  else
    let connection := proposedConnection fromNodeId fromHandleId fromType h
    let isConnectable := h.connectable && h.connectableEnd
    let isValid := isConnectable &&
      (match connectionMode with
       | ConnMode.strictMode =>
           (isTarget && h.handleType = HandleType.source) ||
           (!isTarget && h.handleType = HandleType.target)
       | ConnMode.loose => h.nodeId ≠ fromNodeId || h.id ≠ fromHandleId)
    (isValid && isValidConnection connection, some connection)

/-- The claim's structural-validity rule, written from the claim's own
words for comparison with the code: in strict mode a gesture from a
source must end on a target and vice versa; in loose mode any two
distinct handles may connect; in both modes the exact handle the gesture
started from (same node, same handle id, same type) is forbidden. -/
def claimedStructuralValid (connectionMode : ConnMode) (fromNodeId : String)
    (fromHandleId : Option String) (fromType : HandleType) (h : CheckedHandle) : Bool :=
  let sameHandle := h.nodeId = fromNodeId && h.id = fromHandleId && h.handleType = fromType
  let modeOk :=
    match connectionMode with
    | ConnMode.strictMode =>
        (fromType = HandleType.source && h.handleType = HandleType.target) ||
        (fromType = HandleType.target && h.handleType = HandleType.source)
    | ConnMode.loose => true
  modeOk && !sameHandle

/-!
SECTION: Edges (`addEdge`)
-/

/-- An edge, restricted to the identity fields `addEdge` inspects. -/
structure Edge where
  id : String
  source : String
  target : String
  sourceHandle : Option String := none
  targetHandle : Option String := none
deriving DecidableEq, Repr

/-- The argument of `addEdge`: either an `Edge` (when `id` is present —
`isEdgeBase`) or a `Connection`. -/
structure EdgeParams where
  id : Option String := none
  source : String
  target : String
  sourceHandle : Option String := none
  targetHandle : Option String := none
deriving DecidableEq, Repr

/-- Embeds `getEdgeId({source, sourceHandle, target, targetHandle})`. -/
def getEdgeId (p : EdgeParams) : String :=
  "xy-edge__" ++ p.source ++ p.sourceHandle.getD "" ++ "-" ++ p.target ++ p.targetHandle.getD ""

/-- The per-element test of `connectionExists`: same source and target,
and each handle either strictly equal or falsy on both sides (`null`
and `undefined` both map to `none`). -/
def connectionMatches (el edge : Edge) : Bool :=
  el.source = edge.source && el.target = edge.target &&
  (el.sourceHandle = edge.sourceHandle ||
    (el.sourceHandle.isNone && edge.sourceHandle.isNone)) &&
  (el.targetHandle = edge.targetHandle ||
    (el.targetHandle.isNone && edge.targetHandle.isNone))

/-- Embeds `connectionExists(edge, edges)`. -/
def connectionExists (edge : Edge) (edges : List Edge) : Bool :=
  edges.any fun el => connectionMatches el edge

/-- The edge `addEdge` builds from its argument: a copy when the argument
is already an edge, otherwise the connection with a generated id. -/
def edgeFromParams (p : EdgeParams) : Edge :=
  { id := p.id.getD (getEdgeId p)
    source := p.source
    target := p.target
    sourceHandle := p.sourceHandle
    targetHandle := p.targetHandle }

/-- Embeds `addEdge(edgeParams, edges)`: reject a missing (falsy) source or
target, skip insertion when the connection already exists, otherwise
append.  The source's deletion of `null` handle fields before the append
is the `null ↦ undefined` normalization, invisible to the `Option`
model. -/
def addEdge (edgeParams : EdgeParams) (edges : List Edge) : List Edge :=
  if edgeParams.source = "" ∨ edgeParams.target = "" then edges
  else
    let edge := edgeFromParams edgeParams
    if connectionExists edge edges then edges
    else edges ++ [edge]

/-!
SECTION: Concrete instances used by counterexamples and witnesses
-/

/-- Parent node for the C1 scenarios: a 100 × 100 node at the origin. -/
def c1Parent : InternalNode :=
  { id := "p", position := { x := 0, y := 0 }, measuredWidth := some 100,
    measuredHeight := some 100, positionAbsolute := { x := 0, y := 0 } }

/-- Child with `extent: 'parent'` whose measured size is zero (falsy), so
the source skips the parent clamp entirely. -/
def c1Child : InternalNode :=
  { id := "c", position := { x := 10, y := 10 }, parentId := some "p",
    extent := some NodeExtent.parentBound, measuredWidth := some 0,
    measuredHeight := some 0, positionAbsolute := { x := 10, y := 10 } }

/-- Lookup for the C1 counterexample. -/
def c1Lookup : NodeLookup := [("p", c1Parent), ("c", c1Child)]

/-- Child with a real 20 × 20 measured size for the C1 witness. -/
def c1ChildW : InternalNode :=
  { id := "c", position := { x := 10, y := 10 }, parentId := some "p",
    extent := some NodeExtent.parentBound, measuredWidth := some 20,
    measuredHeight := some 20, positionAbsolute := { x := 10, y := 10 } }

/-- Lookup for the C1 witness. -/
def c1LookupW : NodeLookup := [("p", c1Parent), ("c", c1ChildW)]

/-- The result `calculateNodePosition` produces in the C1 witness
scenario for the far-away input `(1000, -50)`. -/
def c1ResW : CalcPosResult :=
  { position := some { x := 80, y := 0 }, positionAbsolute := { x := 80, y := 0 } }

/-- C2 failing input: first handle, at distance 1 from the pointer. -/
def c2H1 : ConnectionHandle := { nodeId := "n1", type := HandleType.source, x := 1, y := 0 }

/-- C2 failing input: second handle, at distance 5. -/
def c2H2 : ConnectionHandle := { nodeId := "n2", type := HandleType.source, x := 5, y := 0 }

/-- C2 failing input: third handle, at distance 3. -/
def c2H3 : ConnectionHandle := { nodeId := "n3", type := HandleType.source, x := 3, y := 0 }

/-- C3 witness: drag item `"A"`, a 10 × 10 node at (10, 10), no extent. -/
def c3ItemA : NodeDragItem :=
  { id := "A", position := { x := 10, y := 10 }, distance := { x := 0, y := 0 },
    positionAbsolute := { x := 10, y := 10 }, measuredWidth := 10, measuredHeight := 10 }

/-- C3 witness: drag item `"B"`, a 10 × 10 node at (50, 50). -/
def c3ItemB : NodeDragItem :=
  { id := "B", position := { x := 50, y := 50 }, distance := { x := 0, y := 0 },
    positionAbsolute := { x := 50, y := 50 }, measuredWidth := 10, measuredHeight := 10 }

/-- C3 witness: the dragged selection. -/
def c3Items : List NodeDragItem := [c3ItemA, c3ItemB]

/-- C3 witness: the internal node behind item `"A"`. -/
def c3NodeA : InternalNode :=
  { id := "A", position := { x := 10, y := 10 }, measuredWidth := some 10,
    measuredHeight := some 10, positionAbsolute := { x := 10, y := 10 } }

/-- C3 witness: the node lookup. -/
def c3Lookup : NodeLookup := [("A", c3NodeA)]

/-- C3 witness: the global node extent `[[0, 0], [100, 100]]`. -/
def c3Extent : CoordExtent := { lo := { x := 0, y := 0 }, hi := { x := 100, y := 100 } }

/-- C3 witness: the selection's bounding box (as a box). -/
def c3Box : Box := { x := 10, y := 10, x2 := 60, y2 := 60 }

/-- C8 witness connection: source `"a"`, target `"b"`. -/
def c8W : EdgeParams := { source := "a", target := "b" }

/-- C4 counterexample: an unselected parent with a large declared z. -/
def c4Parent : InternalNode :=
  { id := "p", position := { x := 0, y := 0 }, zIndex := some 2000, z := 2000 }

/-- C4 counterexample: a selected child with declared z 0. -/
def c4Child : InternalNode :=
  { id := "c", position := { x := 5, y := 5 }, parentId := some "p",
    selected := true, zIndex := some 0 }

/-- C4 witness: a parent with resolved z 0. -/
def c4ParentW : InternalNode := { id := "p", position := { x := 0, y := 0 } }

/-- C4 witness: a selected child with declared z 5. -/
def c4ChildW : InternalNode :=
  { id := "c", position := { x := 5, y := 5 }, parentId := some "p",
    selected := true, zIndex := some 5 }

/-- C4 witness: an unselected sibling with declared z 3. -/
def c4SibW : InternalNode :=
  { id := "s", position := { x := 9, y := 9 }, parentId := some "p",
    zIndex := some 3 }

/-!
SECTION: Theorems
-/

theorem clamp_le_hi (v lo hi : ℚ) : clamp v lo hi ≤ hi := min_le_right _ _

theorem lo_le_clamp (v lo hi : ℚ) (h : lo ≤ hi) : lo ≤ clamp v lo hi :=
  le_min (le_max_right _ _) h

theorem clamp_eq_self (v lo hi : ℚ) (h1 : lo ≤ v) (h2 : v ≤ hi) : clamp v lo hi = v := by
  rw [clamp, max_eq_left h1, min_eq_left h2]

/-- Characterization of `calculateNodePosition` for a node with
`extent: 'parent'`, `expandParent` unset, a present parent and nonzero
measured sizes on both: the absolute position is the input clamped into
the parent rectangle shrunk by the node's size. -/
theorem calculateNodePosition_parent_extent (nodeId : String) (nextPosition : XYPosition)
    (nodeLookup : NodeLookup) (nodeOrigin : ℚ × ℚ) (nodeExtent : Option NodeExtent)
    (node parentNode : InternalNode) (pid : String) (nw nh pw ph : ℚ)
    (hn : nodeLookup.get nodeId = some node)
    (hext : node.extent = some NodeExtent.parentBound)
    (hexp : node.expandParent = false)
    (hpid : node.parentId = some pid)
    (hp : nodeLookup.get pid = some parentNode)
    (hnw : node.measuredWidth = some nw) (hnh : node.measuredHeight = some nh)
    (hpw : parentNode.measuredWidth = some pw) (hph : parentNode.measuredHeight = some ph)
    (hnw0 : nw ≠ 0) (hnh0 : nh ≠ 0) (hpw0 : pw ≠ 0) (hph0 : ph ≠ 0) :
    (calculateNodePosition nodeId nextPosition nodeLookup nodeOrigin nodeExtent).map
      CalcPosResult.positionAbsolute =
    some (clampPosition nextPosition
      { lo := parentNode.positionAbsolute
        hi := { x := parentNode.positionAbsolute.x + pw - nw
                y := parentNode.positionAbsolute.y + ph - nh } }) := by
  simp [calculateNodePosition, hn, hpid, hp, hext, hexp, hnw, hnh, hpw, hph, truthyQ,
    hnw0, hnh0, hpw0, hph0]

/-- C1 (counterexample): in `c1Lookup` the child `"c"` has
`extent: 'parent'`, no `expandParent`, and its parent `"p"` is present,
yet for the input `(1000, 1000)` the returned `positionAbsolute` is
`(1000, 1000)`, far outside the parent's interior rectangle
(`x` must not exceed `0 + 100 - 0 = 100`): the zero measured size is
falsy, so the clamp is skipped. -/
theorem c1_counterexample :
    (calculateNodePosition "c" { x := 1000, y := 1000 } c1Lookup (0, 0) none).map
        CalcPosResult.positionAbsolute = some { x := 1000, y := 1000 } ∧
    ¬((1000 : ℚ) ≤ c1Parent.positionAbsolute.x + c1Parent.measuredWidth.getD 0 -
        c1Child.measuredWidth.getD 0) := by
  constructor
  · rfl
  · simp [c1Parent, c1Child]
    norm_num

/-- C1 (amended): for a node with `extent: 'parent'` and no
`expandParent` whose parent is present, *provided node and parent have
nonzero measured sizes and the node is no larger than the parent*,
`calculateNodePosition` returns a `positionAbsolute` inside the parent's
interior rectangle: between the parent's absolute top-left corner and
its absolute bottom-right corner minus the node's size, for any input
`nextPosition`. -/
theorem c1_parent_extent_clamped (nodeId : String) (nextPosition : XYPosition)
    (nodeLookup : NodeLookup) (nodeOrigin : ℚ × ℚ) (nodeExtent : Option NodeExtent)
    (node parentNode : InternalNode) (pid : String) (nw nh pw ph : ℚ)
    (res : CalcPosResult)
    (hn : nodeLookup.get nodeId = some node)
    (hext : node.extent = some NodeExtent.parentBound)
    (hexp : node.expandParent = false)
    (hpid : node.parentId = some pid)
    (hp : nodeLookup.get pid = some parentNode)
    (hnw : node.measuredWidth = some nw) (hnh : node.measuredHeight = some nh)
    (hpw : parentNode.measuredWidth = some pw) (hph : parentNode.measuredHeight = some ph)
    (hnw0 : 0 < nw) (hnh0 : 0 < nh) (hwle : nw ≤ pw) (hhle : nh ≤ ph)
    (hres : calculateNodePosition nodeId nextPosition nodeLookup nodeOrigin nodeExtent =
      some res) :
    parentNode.positionAbsolute.x ≤ res.positionAbsolute.x ∧
    res.positionAbsolute.x ≤ parentNode.positionAbsolute.x + pw - nw ∧
    parentNode.positionAbsolute.y ≤ res.positionAbsolute.y ∧
    res.positionAbsolute.y ≤ parentNode.positionAbsolute.y + ph - nh := by
  have hchar := calculateNodePosition_parent_extent nodeId nextPosition nodeLookup
    nodeOrigin nodeExtent node parentNode pid nw nh pw ph hn hext hexp hpid hp
    hnw hnh hpw hph (ne_of_gt hnw0) (ne_of_gt hnh0)
    (ne_of_gt (lt_of_lt_of_le hnw0 hwle)) (ne_of_gt (lt_of_lt_of_le hnh0 hhle))
  rw [hres] at hchar
  simp only [Option.map_some', Option.some.injEq] at hchar
  rw [hchar]
  simp only [clampPosition]
  exact ⟨lo_le_clamp _ _ _ (by linarith), clamp_le_hi _ _ _,
    lo_le_clamp _ _ _ (by linarith), clamp_le_hi _ _ _⟩

/-- Evaluation of `calculateNodePosition` in the C1 witness scenario. -/
theorem c1ResW_eq :
    calculateNodePosition "c" { x := 1000, y := -50 } c1LookupW (0, 0) none =
      some c1ResW := by
  simp [calculateNodePosition, NodeLookup.get, List.lookup, c1LookupW, c1ChildW, c1Parent,
    c1ResW, truthyQ, clampNodeExtent, clampPosition, clamp]
  norm_num

/-- C1 (witness): the amended theorem applied to the concrete scenario
`c1LookupW` (20 × 20 child inside a 100 × 100 parent, input
`(1000, -50)` clamped to `(80, 0)`). -/
theorem c1_parent_extent_clamped_witness :
    c1Parent.positionAbsolute.x ≤ c1ResW.positionAbsolute.x ∧
    c1ResW.positionAbsolute.x ≤ c1Parent.positionAbsolute.x + 100 - 20 ∧
    c1Parent.positionAbsolute.y ≤ c1ResW.positionAbsolute.y ∧
    c1ResW.positionAbsolute.y ≤ c1Parent.positionAbsolute.y + 100 - 20 :=
  c1_parent_extent_clamped "c" { x := 1000, y := -50 } c1LookupW (0, 0) none
    c1ChildW c1Parent "p" 20 20 100 100 c1ResW rfl rfl rfl rfl rfl rfl rfl rfl rfl
    (by norm_num) (by norm_num) (by norm_num) (by norm_num) c1ResW_eq

/-- C6: `getViewportForBounds` returns the zoom
`clamp(min(width / (bounds.width·(1+padding)), height / (bounds.height·(1+padding))), minZoom, maxZoom)`
and a translate that maps the bounds' center to the viewport's center at
that zoom; on the spec's concrete instance (bounds 100 × 100 at the
origin, viewport 1200 × 800, zoom range [1/2, 2], padding 0) it yields
zoom 2 and translate (500, 300). -/
theorem c6_viewport_for_bounds :
    (∀ (bounds : Rect) (width height minZoom maxZoom padding : ℚ),
      (getViewportForBounds bounds width height minZoom maxZoom padding).zoom =
        clamp (Min.min (width / (bounds.width * (1 + padding)))
          (height / (bounds.height * (1 + padding)))) minZoom maxZoom ∧
      rendererPointToPoint
        { x := bounds.x + bounds.width / 2, y := bounds.y + bounds.height / 2 }
        { tx := (getViewportForBounds bounds width height minZoom maxZoom padding).x
          ty := (getViewportForBounds bounds width height minZoom maxZoom padding).y
          tScale := (getViewportForBounds bounds width height minZoom maxZoom padding).zoom } =
        { x := width / 2, y := height / 2 }) ∧
    getViewportForBounds { x := 0, y := 0, width := 100, height := 100 } 1200 800
      (1 / 2) 2 0 = { x := 500, y := 300, zoom := 2 } := by
  refine ⟨fun bounds width height minZoom maxZoom padding => ⟨rfl, ?_⟩, ?_⟩
  · simp only [getViewportForBounds, rendererPointToPoint, XYPosition.mk.injEq]
    constructor <;> ring
  · simp only [getViewportForBounds, clamp]
    norm_num [min_def, Viewport.mk.injEq]

/-- C9: `fitView` on an empty node collection resolves to `false` and
never invokes `panZoom.setViewport` (the recorded call is `none`). -/
theorem c9_fitview_empty_no_effect (width height minZoom maxZoom : ℚ)
    (options : FitViewOptions) :
    fitViewCalc [] width height minZoom maxZoom options = (false, none) := rfl

/-- C10: with grid snapping disabled and a nonzero scale, the screen →
canvas and canvas → screen conversions are mutually inverse. -/
theorem c10_point_conversions_inverse (p : XYPosition) (t : Transform)
    (h : t.tScale ≠ 0) :
    rendererPointToPoint (pointToRendererPoint p t false (1, 1)) t = p ∧
    pointToRendererPoint (rendererPointToPoint p t) t false (1, 1) = p := by
  obtain ⟨x, y⟩ := p
  obtain ⟨tx, ty, s⟩ := t
  simp only [pointToRendererPoint, rendererPointToPoint, Bool.false_eq_true, if_false,
    XYPosition.mk.injEq] at h ⊢
  refine ⟨⟨?_, ?_⟩, ⟨?_, ?_⟩⟩ <;> field_simp

/-- C2 (code evaluated at the failing input): with the pointer at the
origin, radius 10 and the handle lookup iterating handles at distances
1, 5 and 3 (in that order), `getClosestHandle` returns the handle at
distance 3 — not the strictly closer first handle at distance 1.  The
loop overwrites `minDistance` with the distance of *any* handle inside
the radius, so the farther second handle raises the recorded minimum
from 1 to 5 and the third handle then replaces the true closest one. -/
theorem c2_closest_handle_not_minimal :
    getClosestHandle { x := 0, y := 0 } 10 [c2H1, c2H2, c2H3] = some c2H3 ∧
    handleDistSq { x := 0, y := 0 } c2H1 < handleDistSq { x := 0, y := 0 } c2H3 := by
  constructor
  · norm_num [getClosestHandle, closestHandleStep, handleDistSq, List.foldl,
      c2H1, c2H2, c2H3, List.find?]
  · norm_num [handleDistSq, c2H1, c2H3]

/-- C5 (counterexample): in loose mode, a gesture starting on the source
handle of node `"a"` (handle id null) checked against the *target*
handle of the same node (also id null, connectable): the two handles are
distinct (their types differ), so the claim's "any two distinct handles
may connect" says structurally valid, but the code compares only node id
and handle id and returns `isValid: false`. -/
theorem c5_counterexample :
    (isValidHandleCalc ConnMode.loose "a" none HandleType.source (fun _ => true)
      { handleType := HandleType.target, nodeId := "a" }).1 = false ∧
    claimedStructuralValid ConnMode.loose "a" none HandleType.source
      { handleType := HandleType.target, nodeId := "a" } = true :=
  ⟨rfl, rfl⟩

/-- C5 (amended): for a connectable checked handle with a nonempty node
id, the overall validity of `isValidHandle` holds exactly when the
user-supplied predicate accepts the proposed (source, target,
sourceHandle, targetHandle) tuple AND the structural rule holds, where
the structural rule is: in strict mode the gesture that started on a
source handle ends on a target handle or vice versa (regardless of node
or handle id); in loose mode the checked handle must not carry both the
same node id and the same handle id as the start handle (a handle of the
*other* type with the same node and handle id is also rejected). -/
theorem c5_is_valid_handle (connectionMode : ConnMode) (fromNodeId : String)
    (fromHandleId : Option String) (fromType : HandleType)
    (isValidConnection : ConnectionTuple → Bool) (h : CheckedHandle)
    (hconn : h.connectable = true) (hconnEnd : h.connectableEnd = true)
    (hnid : h.nodeId ≠ "") :
    (isValidHandleCalc connectionMode fromNodeId fromHandleId fromType
        isValidConnection h).1 = true ↔
    ((match connectionMode with
      | ConnMode.strictMode =>
          (fromType = HandleType.source ∧ h.handleType = HandleType.target) ∨
          (fromType = HandleType.target ∧ h.handleType = HandleType.source)
      | ConnMode.loose => ¬(h.nodeId = fromNodeId ∧ h.id = fromHandleId)) ∧
      isValidConnection (proposedConnection fromNodeId fromHandleId fromType h) = true) := by
  cases connectionMode <;> cases fromType <;> cases hht : h.handleType <;>
    simp [isValidHandleCalc, hconn, hconnEnd, hnid, hht] <;> tauto

/-- C5 (witness): the amended equivalence applied in strict mode to a
gesture from the source handle of `"a"` onto the target handle of
`"b"` with an accepting predicate: both sides hold. -/
theorem c5_is_valid_handle_witness :
    (isValidHandleCalc ConnMode.strictMode "a" none HandleType.source (fun _ => true)
        { handleType := HandleType.target, nodeId := "b" }).1 = true :=
  (c5_is_valid_handle ConnMode.strictMode "a" none HandleType.source (fun _ => true)
      { handleType := HandleType.target, nodeId := "b" } rfl rfl (by decide)).mpr
    (by simp)

/-- The z component of `calculateChildXYZ` is the maximum of the parent's
resolved z and the child's own `calculateZ` value. -/
theorem calculateChildXYZ_z (childNode parentNode : InternalNode) (nodeOrigin : ℚ × ℚ)
    (selectedNodeZ : ℚ) :
    (calculateChildXYZ childNode parentNode nodeOrigin selectedNodeZ).z =
      Max.max parentNode.z (calculateZ childNode selectedNodeZ) := by
  simp only [calculateChildXYZ]
  rcases le_or_lt parentNode.z (calculateZ childNode selectedNodeZ) with h | h
  · rw [if_neg (not_lt.mpr h), max_eq_right h]
  · rw [if_pos h, max_eq_left h.le]

/-- C4 (counterexample): for a selected child with declared z 0 under an
unselected parent whose resolved z is 2000 (boost 1000), the code
resolves z to `max(0 + 1000, 2000) = 2000`, not the claimed
`max(0, 2000) + 1000 = 3000`: the boost is applied before the max with
the ancestor z, not after. -/
theorem c4_counterexample :
    (calculateChildXYZ c4Child c4Parent (0, 0) 1000).z ≠
      Max.max (c4Child.zIndex.getD 0) c4Parent.z + 1000 := by
  simp [calculateChildXYZ, calculateZ, c4Child, c4Parent]
  norm_num [max_def]

/-- C4 (amended): a child's resolved z is
`max(parent's resolved z, (declared z or 0) + boost when selected)`
(the boost, 1000 when elevation on select is enabled, is added to the
declared z *before* taking the max with the ancestor z); consequently a
selected child sits strictly above an unselected sibling of the same
parent whenever both the parent's resolved z and the sibling's declared
z are below the selected child's declared z plus the boost. -/
theorem c4_resolved_z (childNode parentNode : InternalNode) (nodeOrigin : ℚ × ℚ)
    (selectedNodeZ : ℚ) :
    ((calculateChildXYZ childNode parentNode nodeOrigin selectedNodeZ).z =
      Max.max parentNode.z
        (childNode.zIndex.getD 0 + (if childNode.selected then selectedNodeZ else 0))) ∧
    (∀ sibling : InternalNode, childNode.selected = true → sibling.selected = false →
      parentNode.z < childNode.zIndex.getD 0 + selectedNodeZ →
      sibling.zIndex.getD 0 < childNode.zIndex.getD 0 + selectedNodeZ →
      (calculateChildXYZ sibling parentNode nodeOrigin selectedNodeZ).z <
        (calculateChildXYZ childNode parentNode nodeOrigin selectedNodeZ).z) := by
  refine ⟨calculateChildXYZ_z childNode parentNode nodeOrigin selectedNodeZ, ?_⟩
  intro sibling hsel hsib hpz hsz
  rw [calculateChildXYZ_z, calculateChildXYZ_z]
  have h1 : calculateZ childNode selectedNodeZ =
      childNode.zIndex.getD 0 + selectedNodeZ := by
    simp [calculateZ, hsel]
  have h2 : calculateZ sibling selectedNodeZ = sibling.zIndex.getD 0 := by
    simp [calculateZ, hsib]
  rw [h1, h2, max_eq_right hpz.le]
  exact max_lt hpz hsz

/-- C4 (witness): the amended theorem at the concrete family
`c4ParentW` (z 0), `c4ChildW` (selected, declared z 5) and `c4SibW`
(unselected, declared z 3) with boost 1000. -/
theorem c4_resolved_z_witness :
    ((calculateChildXYZ c4ChildW c4ParentW (0, 0) 1000).z =
      Max.max c4ParentW.z
        (c4ChildW.zIndex.getD 0 + (if c4ChildW.selected then (1000 : ℚ) else 0))) ∧
    (calculateChildXYZ c4SibW c4ParentW (0, 0) 1000).z <
      (calculateChildXYZ c4ChildW c4ParentW (0, 0) 1000).z :=
  ⟨(c4_resolved_z c4ChildW c4ParentW (0, 0) 1000).1,
   (c4_resolved_z c4ChildW c4ParentW (0, 0) 1000).2 c4SibW rfl rfl
     (by norm_num [c4ParentW, c4ChildW]) (by norm_num [c4SibW, c4ChildW])⟩

/-- The linear regime of `calcAutoPanVelocity` below the low edge: when
the overshoot `lo - value` lies in `[1, lo]`, the velocity is
`(lo - value) / lo`. -/
theorem calcAutoPanVelocity_linear_low (value lo hi : ℚ) (h1 : 1 ≤ lo - value)
    (h2 : lo - value ≤ lo) : calcAutoPanVelocity value lo hi = (lo - value) / lo := by
  have hv : value < lo := by linarith
  have ha : |value - lo| = lo - value := by
    rw [abs_sub_comm, abs_of_nonneg (by linarith)]
  rw [calcAutoPanVelocity, if_pos hv, ha, clamp, max_eq_left h1, min_eq_left h2]

/-- C7 (counterexample): with margin 40, the pointer positions 39.25 and
39.5 are both past the margin, 39.25 farther past it, yet the velocity
magnitudes are equal (both 1/40, the overshoot being clamped below by
1) — the claimed strict monotonicity in the distance past the margin
fails. -/
theorem c7_counterexample :
    ¬(|calcAutoPanVelocity (157 / 4) 40 100| > |calcAutoPanVelocity (79 / 2) 40 100|) := by
  have e1 : calcAutoPanVelocity (157 / 4) 40 100 = 1 / 40 := by
    rw [calcAutoPanVelocity, if_pos (by norm_num)]
    rw [show |(157 : ℚ) / 4 - 40| = 3 / 4 by rw [abs_sub_comm, abs_of_nonneg] <;> norm_num]
    rw [clamp, max_eq_right (by norm_num), min_eq_left (by norm_num)]
  have e2 : calcAutoPanVelocity (79 / 2) 40 100 = 1 / 40 := by
    rw [calcAutoPanVelocity, if_pos (by norm_num)]
    rw [show |(79 : ℚ) / 2 - 40| = 1 / 2 by rw [abs_sub_comm, abs_of_nonneg] <;> norm_num]
    rw [clamp, max_eq_right (by norm_num), min_eq_left (by norm_num)]
  rw [e1, e2]
  exact lt_irrefl _

/-- C7 (amended): the auto-pan velocity is exactly zero on both axes for
any pointer at least `distance` from every viewport edge; past an edge
the magnitude is `clamp(overshoot, 1, margin) / margin` — it jumps to
`1/margin` for overshoots below 1 (so it does *not* start at 0 and is
constant, not strictly monotone, on that initial band), then scales
linearly from `1/margin` to 1 for overshoots between 1 and the margin,
where it is strictly monotone in the distance past the margin, and
saturates at 1 beyond. -/
theorem c7_autopan_velocity (value lo hi v1 v2 : ℚ) :
    (∀ (pos : XYPosition) (bounds : Rect) (speed dist : ℚ),
      dist ≤ pos.x → pos.x ≤ bounds.width - dist →
      dist ≤ pos.y → pos.y ≤ bounds.height - dist →
      calcAutoPan pos bounds speed dist = (0, 0)) ∧
    (1 ≤ lo - value → lo - value ≤ lo →
      calcAutoPanVelocity value lo hi = (lo - value) / lo) ∧
    (1 ≤ lo → value < lo → lo - value ≤ 1 →
      calcAutoPanVelocity value lo hi = 1 / lo) ∧
    (lo ≤ value → 1 ≤ value - hi → value - hi ≤ lo →
      calcAutoPanVelocity value lo hi = -((value - hi) / lo)) ∧
    (v1 < v2 → 1 ≤ lo - v2 → lo - v1 ≤ lo →
      calcAutoPanVelocity v2 lo hi < calcAutoPanVelocity v1 lo hi) := by
  refine ⟨?_, ?_, ?_, ?_, ?_⟩
  · intro pos bounds speed dist h1 h2 h3 h4
    simp [calcAutoPan, calcAutoPanVelocity, not_lt.mpr h1, not_lt.mpr h2,
      not_lt.mpr h3, not_lt.mpr h4]
  · exact calcAutoPanVelocity_linear_low value lo hi
  · intro hlo hv hband
    have ha : |value - lo| = lo - value := by
      rw [abs_sub_comm, abs_of_nonneg (by linarith)]
    rw [calcAutoPanVelocity, if_pos hv, ha, clamp, max_eq_right hband, min_eq_left hlo]
  · intro hge h1 h2
    have hv : ¬(value < lo) := not_lt.mpr hge
    have hgt : hi < value := by linarith
    have ha : |value - hi| = value - hi := abs_of_nonneg (by linarith)
    rw [calcAutoPanVelocity, if_neg hv, if_pos hgt, ha, clamp, max_eq_left h1,
      min_eq_left h2, neg_div]
  · intro hlt hv2 hv1
    have hlo : 0 < lo := by linarith
    rw [calcAutoPanVelocity_linear_low v2 lo hi hv2 (by linarith),
      calcAutoPanVelocity_linear_low v1 lo hi (by linarith) hv1]
    exact (div_lt_div_iff_of_pos_right hlo).mpr (by linarith)

/-- C7 (witness): the amended theorem at margin 40 and viewport
200 × 300: zero at (50, 60); velocity `(40 - 20)/40` at 20; plateau
`1/40` at 39.5; `-(30/40)` at 130 past the high edge 100; and strict
monotonicity between 20 and 30. -/
theorem c7_autopan_velocity_witness :
    calcAutoPan { x := 50, y := 60 } { x := 0, y := 0, width := 200, height := 300 }
        15 40 = (0, 0) ∧
    calcAutoPanVelocity 20 40 100 = (40 - 20) / 40 ∧
    calcAutoPanVelocity (79 / 2) 40 100 = 1 / 40 ∧
    calcAutoPanVelocity 130 40 100 = -((130 - 100) / 40) ∧
    calcAutoPanVelocity 30 40 100 < calcAutoPanVelocity 20 40 100 :=
  ⟨(c7_autopan_velocity 0 0 0 0 0).1 { x := 50, y := 60 }
      { x := 0, y := 0, width := 200, height := 300 } 15 40
      (by norm_num) (by norm_num) (by norm_num) (by norm_num),
   (c7_autopan_velocity 20 40 100 0 0).2.1 (by norm_num) (by norm_num),
   (c7_autopan_velocity (79 / 2) 40 100 0 0).2.2.1 (by norm_num) (by norm_num) (by norm_num),
   (c7_autopan_velocity 130 40 100 0 0).2.2.2.1 (by norm_num) (by norm_num) (by norm_num),
   (c7_autopan_velocity 0 40 100 20 30).2.2.2.2 (by norm_num) (by norm_num) (by norm_num)⟩

/-- Characterization of `calculateNodePosition` for a node without its
own extent and without a parent, resolved against an explicit coordinate
`nodeExtent`: the absolute position is the input clamped into the extent
with its max corner shrunk by the node's measured size
(`clampNodeExtent`). -/
theorem calculateNodePosition_no_parent_abs (nodeId : String) (nextPosition : XYPosition)
    (nodeLookup : NodeLookup) (nodeOrigin : ℚ × ℚ) (e : CoordExtent) (node : InternalNode)
    (hn : nodeLookup.get nodeId = some node)
    (hext : node.extent = none) (hnopar : node.parentId = none) :
    (calculateNodePosition nodeId nextPosition nodeLookup nodeOrigin
        (some (NodeExtent.coords e))).map CalcPosResult.positionAbsolute =
    some (clampPosition nextPosition
      { lo := e.lo
        hi := { x := e.hi.x - node.measuredWidth.getD 0
                y := e.hi.y - node.measuredHeight.getD 0 } }) := by
  simp [calculateNodePosition, hn, hext, hnopar, clampNodeExtent, isCoordinateExtent]

/-- C3: during a multi-item drag with a global node extent, (a) a drag
item without its own extent is resolved against the global extent
translated so the item keeps its position relative to the selection's
bounding box, and (b) as long as the selection's bounding box shifted by
the drag delta stays inside the global extent, such an item moves by the
full unclamped delta — regardless of whether another selection member
carries its own extent and is clamped by it. -/
theorem c3_multi_drag_adjusted_extent (pointer : XYPosition) (dragItems : List NodeDragItem)
    (nodeLookup : NodeLookup) (nodeExtent : CoordExtent) (nodeOrigin : ℚ × ℚ)
    (snapGrid : ℚ × ℚ) (item : NodeDragItem) (node : InternalNode) (box : Box) (dx dy : ℚ)
    (hbox : box = rectToBox (getDragItemsBounds dragItems))
    (hmem : item ∈ dragItems)
    (hmulti : dragItems.length > 1)
    (hitemext : item.extent = none)
    (hnode : nodeLookup.get item.id = some node)
    (hnodeext : node.extent = none)
    (hnopar : node.parentId = none)
    (hw : node.measuredWidth.getD 0 = item.measuredWidth)
    (hh : node.measuredHeight.getD 0 = item.measuredHeight)
    (hdx : pointer.x - item.distance.x = item.positionAbsolute.x + dx)
    (hdy : pointer.y - item.distance.y = item.positionAbsolute.y + dy)
    (hx1 : nodeExtent.lo.x ≤ box.x + dx)
    (hx2 : box.x2 + dx ≤ nodeExtent.hi.x)
    (hy1 : nodeExtent.lo.y ≤ box.y + dy)
    (hy2 : box.y2 + dy ≤ nodeExtent.hi.y) :
    (updateNodeItem pointer dragItems.length box nodeLookup nodeExtent nodeOrigin
        false snapGrid item =
      (item.id, calculateNodePosition item.id
        { x := pointer.x - item.distance.x, y := pointer.y - item.distance.y }
        nodeLookup nodeOrigin
        (some (NodeExtent.coords
          { lo := { x := nodeExtent.lo.x + (item.positionAbsolute.x - box.x)
                    y := nodeExtent.lo.y + (item.positionAbsolute.y - box.y) }
            hi := { x := nodeExtent.hi.x +
                      (item.positionAbsolute.x + item.measuredWidth - box.x2)
                    y := nodeExtent.hi.y +
                      (item.positionAbsolute.y + item.measuredHeight - box.y2) } })))) ∧
    (∃ relPosition : Option XYPosition,
      (item.id, some (CalcPosResult.mk relPosition
          { x := item.positionAbsolute.x + dx, y := item.positionAbsolute.y + dy })) ∈
        updateNodesCalc pointer dragItems nodeLookup nodeExtent nodeOrigin false snapGrid) := by
  have hcond : dragItems.length > 1 ∧ item.extent = none := ⟨hmulti, hitemext⟩
  have hextEq : ({ lo := { x := item.positionAbsolute.x - box.x + nodeExtent.lo.x
                           y := item.positionAbsolute.y - box.y + nodeExtent.lo.y }
                   hi := { x := item.positionAbsolute.x + item.measuredWidth - box.x2 +
                             nodeExtent.hi.x
                           y := item.positionAbsolute.y + item.measuredHeight - box.y2 +
                             nodeExtent.hi.y } } : CoordExtent) =
      { lo := { x := nodeExtent.lo.x + (item.positionAbsolute.x - box.x)
                y := nodeExtent.lo.y + (item.positionAbsolute.y - box.y) }
        hi := { x := nodeExtent.hi.x + (item.positionAbsolute.x + item.measuredWidth - box.x2)
                y := nodeExtent.hi.y +
                  (item.positionAbsolute.y + item.measuredHeight - box.y2) } } := by
    simp only [CoordExtent.mk.injEq, XYPosition.mk.injEq]
    refine ⟨⟨by ring, by ring⟩, by ring, by ring⟩
  have ha : updateNodeItem pointer dragItems.length box nodeLookup nodeExtent nodeOrigin
      false snapGrid item =
      (item.id, calculateNodePosition item.id
        { x := pointer.x - item.distance.x, y := pointer.y - item.distance.y }
        nodeLookup nodeOrigin
        (some (NodeExtent.coords
          { lo := { x := nodeExtent.lo.x + (item.positionAbsolute.x - box.x)
                    y := nodeExtent.lo.y + (item.positionAbsolute.y - box.y) }
            hi := { x := nodeExtent.hi.x +
                      (item.positionAbsolute.x + item.measuredWidth - box.x2)
                    y := nodeExtent.hi.y +
                      (item.positionAbsolute.y + item.measuredHeight - box.y2) } }))) := by
    rw [updateNodeItem]
    simp only [Bool.false_eq_true, if_false, if_pos hcond, hextEq]
  refine ⟨ha, ?_⟩
  have hnext : ({ x := pointer.x - item.distance.x, y := pointer.y - item.distance.y } :
      XYPosition) = { x := item.positionAbsolute.x + dx, y := item.positionAbsolute.y + dy } := by
    simp only [XYPosition.mk.injEq]
    exact ⟨hdx, hdy⟩
  have habs := calculateNodePosition_no_parent_abs item.id
    { x := item.positionAbsolute.x + dx, y := item.positionAbsolute.y + dy }
    nodeLookup nodeOrigin
    { lo := { x := nodeExtent.lo.x + (item.positionAbsolute.x - box.x)
              y := nodeExtent.lo.y + (item.positionAbsolute.y - box.y) }
      hi := { x := nodeExtent.hi.x + (item.positionAbsolute.x + item.measuredWidth - box.x2)
              y := nodeExtent.hi.y + (item.positionAbsolute.y + item.measuredHeight - box.y2) } }
    node hnode hnodeext hnopar
  have hclamp : clampPosition { x := item.positionAbsolute.x + dx
                                y := item.positionAbsolute.y + dy }
      { lo := { x := nodeExtent.lo.x + (item.positionAbsolute.x - box.x)
                y := nodeExtent.lo.y + (item.positionAbsolute.y - box.y) }
        hi := { x := nodeExtent.hi.x + (item.positionAbsolute.x + item.measuredWidth - box.x2) -
                  node.measuredWidth.getD 0
                y := nodeExtent.hi.y + (item.positionAbsolute.y + item.measuredHeight - box.y2) -
                  node.measuredHeight.getD 0 } } =
      { x := item.positionAbsolute.x + dx, y := item.positionAbsolute.y + dy } := by
    simp only [clampPosition, XYPosition.mk.injEq]
    constructor
    · exact clamp_eq_self _ _ _ (by linarith) (by rw [hw]; linarith)
    · exact clamp_eq_self _ _ _ (by linarith) (by rw [hh]; linarith)
  rw [hclamp] at habs
  rcases Option.map_eq_some'.mp habs with ⟨res, hres, hresAbs⟩
  refine ⟨res.position, ?_⟩
  have hresEq : res = CalcPosResult.mk res.position
      { x := item.positionAbsolute.x + dx, y := item.positionAbsolute.y + dy } := by
    cases res
    simpa using hresAbs
  rw [updateNodesCalc]
  simp only [if_pos hmulti, ← hbox]
  have hfinal : updateNodeItem pointer dragItems.length box nodeLookup nodeExtent nodeOrigin
      false snapGrid item =
      (item.id, some (CalcPosResult.mk res.position
          { x := item.positionAbsolute.x + dx, y := item.positionAbsolute.y + dy })) := by
    rw [ha, hnext, hres, ← hresEq]
  rw [← hfinal]
  exact List.mem_map_of_mem _ hmem

/-- The bounding box of the C3 witness selection. -/
theorem c3Box_eq : c3Box = rectToBox (getDragItemsBounds c3Items) := by
  norm_num [c3Box, c3Items, getDragItemsBounds, dragItemToBox, boxToRect, rectToBox,
    getBoundsOfBoxes, c3ItemA, c3ItemB, min_def, max_def]

/-- C3 (witness): the theorem applied to the concrete two-item selection
`c3Items` (items at (10, 10) and (50, 50), sizes 10 × 10) under the
global extent `[[0, 0], [100, 100]]`, pointer at (30, 30), delta
(20, 20): item `"A"` moves to (30, 30), the full unclamped delta. -/
theorem c3_multi_drag_adjusted_extent_witness :
    (updateNodeItem { x := 30, y := 30 } c3Items.length c3Box c3Lookup c3Extent (0, 0)
        false (1, 1) c3ItemA =
      (c3ItemA.id, calculateNodePosition c3ItemA.id
        { x := 30 - c3ItemA.distance.x, y := 30 - c3ItemA.distance.y }
        c3Lookup (0, 0)
        (some (NodeExtent.coords
          { lo := { x := c3Extent.lo.x + (c3ItemA.positionAbsolute.x - c3Box.x)
                    y := c3Extent.lo.y + (c3ItemA.positionAbsolute.y - c3Box.y) }
            hi := { x := c3Extent.hi.x +
                      (c3ItemA.positionAbsolute.x + c3ItemA.measuredWidth - c3Box.x2)
                    y := c3Extent.hi.y +
                      (c3ItemA.positionAbsolute.y + c3ItemA.measuredHeight - c3Box.y2) } })))) ∧
    (∃ relPosition : Option XYPosition,
      (c3ItemA.id, some (CalcPosResult.mk relPosition
          { x := c3ItemA.positionAbsolute.x + 20, y := c3ItemA.positionAbsolute.y + 20 })) ∈
        updateNodesCalc { x := 30, y := 30 } c3Items c3Lookup c3Extent (0, 0) false (1, 1)) :=
  c3_multi_drag_adjusted_extent { x := 30, y := 30 } c3Items c3Lookup c3Extent (0, 0) (1, 1)
    c3ItemA c3NodeA c3Box 20 20 c3Box_eq (List.mem_cons_self _ _) (by norm_num [c3Items])
    rfl rfl rfl rfl rfl rfl (by norm_num [c3ItemA]) (by norm_num [c3ItemA])
    (by norm_num [c3Extent, c3Box]) (by norm_num [c3Extent, c3Box])
    (by norm_num [c3Extent, c3Box]) (by norm_num [c3Extent, c3Box])

/-- An edge matches itself under `connectionMatches`. -/
theorem connectionMatches_self (e : Edge) : connectionMatches e e = true := by
  simp [connectionMatches]

/-- C8: `addEdge` is idempotent with respect to the connection tuple —
for a connection with nonempty source and target, inserting twice equals
inserting once; and when the edge list contains no edge with the tuple
yet, inserting twice leaves exactly one edge with that tuple (matching
via the same handle comparison `connectionExists` uses). -/
theorem c8_add_edge_idempotent (c : EdgeParams) (es : List Edge)
    (hs : c.source ≠ "") (ht : c.target ≠ "") :
    addEdge c (addEdge c es) = addEdge c es ∧
    ((∀ e ∈ es, connectionMatches e (edgeFromParams c) = false) →
      ((addEdge c (addEdge c es)).filter
        (fun e => connectionMatches e (edgeFromParams c))).length = 1) := by
  have hguard : ¬(c.source = "" ∨ c.target = "") := by
    rintro (h | h)
    · exact hs h
    · exact ht h
  have hstep : ∀ l : List Edge, addEdge c l =
      if connectionExists (edgeFromParams c) l then l else l ++ [edgeFromParams c] := by
    intro l
    rw [addEdge, if_neg hguard]
  have hex2 : connectionExists (edgeFromParams c) (addEdge c es) = true := by
    rw [hstep es]
    by_cases hex : connectionExists (edgeFromParams c) es = true
    · rw [if_pos hex]
      exact hex
    · rw [if_neg hex]
      simp [connectionExists, List.any_append, connectionMatches_self]
  have hidem : addEdge c (addEdge c es) = addEdge c es := by
    rw [hstep (addEdge c es), if_pos hex2]
  refine ⟨hidem, fun hnone => ?_⟩
  have hex : ¬connectionExists (edgeFromParams c) es = true := by
    simp only [connectionExists, List.any_eq_true, not_exists]
    intro e
    rintro ⟨he, hm⟩
    rw [hnone e he] at hm
    exact Bool.false_ne_true hm
  rw [hidem, hstep es, if_neg hex, List.filter_append]
  have h1 : es.filter (fun e => connectionMatches e (edgeFromParams c)) = [] := by
    rw [List.filter_eq_nil_iff]
    intro a ha
    simp [hnone a ha]
  rw [h1]
  simp [connectionMatches_self]

/-- C8 (witness): inserting the connection `("a", "b")` twice into the
empty edge list equals inserting it once, and exactly one edge with that
tuple results. -/
theorem c8_add_edge_idempotent_witness :
    addEdge c8W (addEdge c8W []) = addEdge c8W [] ∧
    ((addEdge c8W (addEdge c8W [])).filter
      (fun e => connectionMatches e (edgeFromParams c8W))).length = 1 :=
  ⟨(c8_add_edge_idempotent c8W [] (by decide) (by decide)).1,
   (c8_add_edge_idempotent c8W [] (by decide) (by decide)).2 (by simp)⟩

/-- C10 (witness): the inverse property at the point `(3, 4)` and the
transform `(5, 6, 2)`. -/
theorem c10_point_conversions_inverse_witness :
    rendererPointToPoint (pointToRendererPoint { x := 3, y := 4 } { tx := 5, ty := 6, tScale := 2 }
        false (1, 1)) { tx := 5, ty := 6, tScale := 2 } = { x := 3, y := 4 } ∧
    pointToRendererPoint (rendererPointToPoint { x := 3, y := 4 } { tx := 5, ty := 6, tScale := 2 })
        { tx := 5, ty := 6, tScale := 2 } false (1, 1) = { x := 3, y := 4 } :=
  c10_point_conversions_inverse { x := 3, y := 4 } { tx := 5, ty := 6, tScale := 2 }
    (by norm_num)

end XYFlow
